import Mathlib

/-!
Shallow embedding of the streaming audio segmentation core of
`sumitsafelib` (`src/sumitsafelib/src/sumitsafelib.cpp`): the single-pole
high-pass filter `high_pass_filter`, the energy VAD `vad_deepseek`, and the
buffer/state machine `WhisperService::processAudioStream`.

Modelling choices:
- `float` samples, thresholds and energies are modelled as real numbers;
  C integer quantities (sample counts, milliseconds) as natural numbers with
  truncated division, matching C integer division on non-negative values.
- The in-place mutation of `std::vector<float>` buffers becomes explicit
  state passing over `List ℝ`.
- The external transcription engine (`whisper_full`) is an opaque
  collaborator: its success/failure is an input `transcribeOk` to the step
  function, and the span handed to it is recorded in the result.
- The process-wide mutable `noise_floor` global is threaded through as
  explicit state.
-/

namespace SumitSafe

/-- Constant `WHISPER_SAMPLE_RATE` from whisper.h: all processing runs at 16 kHz. -/
def WHISPER_SAMPLE_RATE : ℕ := 16000

/-- Sum of squares of the samples of a region
(the `energy += sample * sample` accumulation in `vad_deepseek`). -/
def sumSq : List ℝ → ℝ
  | [] => 0
  | x :: xs => x * x + sumSq xs

/-- The last `n` elements of a list: what remains of `l` after
`l.erase(l.begin(), l.end() - n)`, or what `insert(dst.end, l.end - n, l.end)`
copies. For `n ≥ l.length` this is all of `l`. -/
def lastN (n : ℕ) (l : List ℝ) : List ℝ := l.drop (l.length - n)

/-- Coefficient `alpha = rc / (rc + dt)` with `rc = 1/(2·π·cutoff)`, `dt = 1/sample_rate`:
the filter coefficient computed at lines 18–20 of `high_pass_filter`. -/
noncomputable def hpfAlpha (cutoff sample_rate : ℝ) : ℝ :=
  let rc : ℝ := 1 / (2 * Real.pi * cutoff)
  let dt : ℝ := 1 / sample_rate
  rc / (rc + dt)

/-- The filter loop of `high_pass_filter` (lines 26–32): starting from the
carried state `(prev_input, prev_output)`, each sample `x` is replaced by
`output = alpha * (prev_output + x - prev_input)` and the state becomes
`(x, output)`. -/
noncomputable def hpfLoop (alpha : ℝ) : ℝ → ℝ → List ℝ → List ℝ
  | _, _, [] => []
  | prevIn, prevOut, x :: xs =>
      let out := alpha * (prevOut + x - prevIn)
      out :: hpfLoop alpha x out xs

/-- Model of `high_pass_filter(data, cutoff, sample_rate)`: no-op when
`cutoff <= 0 || cutoff >= sample_rate / 2`; otherwise element 0 is left
unchanged and the loop starts from `prev_input = data[0]`,
`prev_output = 0.0f`. (On the empty buffer the C code reads `data[0]` out of
range but runs no loop iteration and writes nothing; the resulting buffer
contents are unchanged — see `high_pass_filterChecked` for the access check.) -/
noncomputable def high_pass_filter (data : List ℝ) (cutoff sample_rate : ℝ) :
    List ℝ :=
  if cutoff ≤ 0 ∨ sample_rate / 2 ≤ cutoff then data
  else
    match data with
    | [] => []
    | d0 :: rest => d0 :: hpfLoop (hpfAlpha cutoff sample_rate) d0 0 rest

/-- Access-checked variant of `high_pass_filter`: `none` exactly when the C
code performs an out-of-range buffer access. The only unguarded access is
the read `float prev_input = data[0];` at line 22, executed after the cutoff
guard even when the buffer is empty; the loop itself touches indices
`1 ≤ i < data.size()` only. -/
noncomputable def high_pass_filterChecked (data : List ℝ)
    (cutoff sample_rate : ℝ) : Option (List ℝ) :=
  if cutoff ≤ 0 ∨ sample_rate / 2 ≤ cutoff then some data
  else
    match data with
    | [] => none
    | d0 :: rest => some (d0 :: hpfLoop (hpfAlpha cutoff sample_rate) d0 0 rest)

/-- The fixed smoothing factor `alpha = 0.01f` of the adaptive noise floor. -/
def nfSmoothing : ℝ := 0.01

open Classical

/-- Model of `vad_deepseek(pcmf32, sample_rate, last_ms, vad_thold, freq_thold, _)`,
returning the classification (`true` = silence) together with the updated
process-wide `noise_floor` state. Mirrors lines 38–97 of the source:
edge case returning `false`; optional high-pass of a working copy; RMS
energies of the two index regions; relative-threshold comparison; noise-floor
update (smoothed, clamped to ≥ 0.1) on silence. -/
noncomputable def vad_deepseek (pcmf32 : List ℝ) (sample_rate last_ms : ℕ)
    (vad_thold freq_thold noise_floor : ℝ) : Bool × ℝ :=
  let n_samples := pcmf32.length
  let n_samples_last := sample_rate * last_ms / 1000
  if n_samples_last ≥ n_samples ∨ n_samples = 0 then
    (false, noise_floor)
  else
    let filtered :=
      if 0 < freq_thold then
        high_pass_filter pcmf32 freq_thold (sample_rate : ℝ)
      else pcmf32
    let n_samples_all := n_samples - n_samples_last
    let energy_all_sum := sumSq (filtered.take n_samples_all)
    let energy_last_sum := sumSq (filtered.drop n_samples_all)
    let energy_all :=
      if 0 < n_samples_all then
        Real.sqrt (energy_all_sum / (n_samples_all : ℝ))
      else 0
    let energy_last := Real.sqrt (energy_last_sum / (n_samples_last : ℝ))
    let is_silent : Bool :=
      if energy_last < max energy_all noise_floor / vad_thold then true
      else false
    let noise_floor1 :=
      if is_silent then
        max (nfSmoothing * energy_all + (1 - nfSmoothing) * noise_floor) 0.1
      else noise_floor
    (is_silent, noise_floor1)

/-- The session configuration fields of `WhisperParams` that
`processAudioStream` reads. -/
structure WhisperParams where
  keep_ms : ℕ
  vad_thold : ℝ
  freq_thold : ℝ

/-- The mutable per-session state of `WhisperService` relevant to
`processAudioStream`, plus the file-static `noise_floor` global threaded
through explicitly. Times are in milliseconds. -/
structure WhisperState where
  pcmf32_old : List ℝ
  pcmf32_voice : List ℝ
  is_speaking : Bool
  last_voice_time : ℕ
  noise_floor : ℝ

/-- Outcome of one `processAudioStream` call: the state at return (or, when
`threw = true`, at the point the `Whisper transcription failed!` exception
leaves the method), and the sample span handed to the transcription engine,
when the call invoked it. At most one transcription attempt happens per
call. -/
structure StreamResult where
  state : WhisperState
  emitted : Option (List ℝ)
  threw : Bool

/-- Constant `MAX_TALKING_MS = 600000`: hard ceiling before forced transcription. -/
def MAX_TALKING_MS : ℕ := 600000

/-- The hysteresis / state-tracking step of `processAudioStream`
(lines 235–261), acting on the state after the chunk has been appended to
the voice buffer (`voice1`): speech sets `is_speaking`; silence while
speaking refreshes `last_voice_time` and forces the flush flag; silence
while idle for longer than `maxSilenceMs` moves the voice buffer into
`pcmf32_old`, clears it, and trims `pcmf32_old` to the last
`min_silence_samples` samples. -/
structure HystOut where
  is_speaking : Bool
  last_voice_time : ℕ
  pcmf32_old : List ℝ
  pcmf32_voice : List ℝ
  flush : Bool

def hysteresisStep (st : WhisperState) (voice1 : List ℝ)
    (silence_detected : Bool) (flushCmd : Bool)
    (minSilenceSpeakingMs maxSilenceMs now : ℕ) : HystOut :=
  if silence_detected = false then
    ⟨true, st.last_voice_time, st.pcmf32_old, voice1, flushCmd⟩
  else if st.is_speaking then
    ⟨st.is_speaking, now, st.pcmf32_old, voice1, true⟩
  else if now - st.last_voice_time > maxSilenceMs then
    let min_silence_samples := minSilenceSpeakingMs * WHISPER_SAMPLE_RATE / 1000
    let old1 :=
      if voice1.length > min_silence_samples then lastN min_silence_samples voice1
      else voice1
    ⟨st.is_speaking, now, old1, [], flushCmd⟩
  else
    ⟨st.is_speaking, st.last_voice_time, st.pcmf32_old, voice1, flushCmd⟩

/-- Model of `WhisperService::processAudioStream(audio_data, flushCmd,
minSilenceSpeakingMs, maxSilenceMs)` (lines 190–326), with the wall clock
`now` and the transcription engine's outcome `transcribeOk` passed in
explicitly. Context assembly, voice-buffer append, VAD over the accumulated
buffer, hysteresis, the forced-transcription check, the emission branch
(including the throw-before-reset on engine failure, and the unused
`n_samples_to_actually_keep` of line 304), and the non-emission context
refresh are all mirrored from the source. -/
noncomputable def processAudioStream (p : WhisperParams) (st : WhisperState)
    (audio_data : List ℝ) (flushCmd : Bool)
    (minSilenceSpeakingMs maxSilenceMs now : ℕ) (transcribeOk : Bool) :
    StreamResult :=
  let max_buffer_samples := MAX_TALKING_MS * WHISPER_SAMPLE_RATE / 1000
  let n_samples_keep := p.keep_ms * WHISPER_SAMPLE_RATE / 1000
  let pcmf32_context :=
    if st.pcmf32_old = [] then []
    else lastN (min st.pcmf32_old.length n_samples_keep) st.pcmf32_old
  let voice1 := st.pcmf32_voice ++ audio_data
  let vr := vad_deepseek voice1 WHISPER_SAMPLE_RATE minSilenceSpeakingMs
      p.vad_thold p.freq_thold st.noise_floor
  let h := hysteresisStep st voice1 vr.1 flushCmd
      minSilenceSpeakingMs maxSilenceMs now
  let forced := decide (h.pcmf32_voice.length > max_buffer_samples)
  if h.flush || forced then
    let pcmf32 := pcmf32_context ++ h.pcmf32_voice
    if transcribeOk then
      let old2 := h.pcmf32_voice
      let n_samples_to_actually_keep :=
        if forced then max (WHISPER_SAMPLE_RATE * 2) n_samples_keep
        else n_samples_keep
      -- `n_samples_to_actually_keep` is computed but never read in the
      -- source (line 304): the trim below uses `n_samples_keep`.
      let old3 :=
        if old2.length > n_samples_keep then lastN n_samples_keep old2 else old2
      { state := ⟨old3, [], false, h.last_voice_time, vr.2⟩,
        emitted := some pcmf32, threw := false }
    else
      -- `whisper_full` failed: the exception at line 284 leaves the method
      -- before any of the buffer resets of lines 297–309 run.
      { state := ⟨h.pcmf32_old, h.pcmf32_voice, h.is_speaking,
          h.last_voice_time, vr.2⟩,
        emitted := some pcmf32, threw := true }
  else
    let oldr :=
      if h.pcmf32_voice.length > n_samples_keep then
        lastN n_samples_keep h.pcmf32_voice
      else h.pcmf32_voice
    { state := ⟨oldr, h.pcmf32_voice, h.is_speaking, h.last_voice_time, vr.2⟩,
      emitted := none, threw := false }

/-! ## Helper lemmas about the filter loop -/

theorem hpfLoop_length (a : ℝ) (xs : List ℝ) : ∀ (pIn pOut : ℝ),
    (hpfLoop a pIn pOut xs).length = xs.length := by
  induction xs with
  | nil => intro pIn pOut; rfl
  | cons x xs ih => intro pIn pOut; simp [hpfLoop, ih]

theorem hpfLoop_getD_zero (a pIn pOut x : ℝ) (xs : List ℝ) :
    (hpfLoop a pIn pOut (x :: xs)).getD 0 0 = a * (pOut + x - pIn) := by
  simp [hpfLoop]

theorem hpfLoop_getD_succ (a : ℝ) (xs : List ℝ) :
    ∀ (i : ℕ) (pIn pOut : ℝ), i + 1 < xs.length →
      (hpfLoop a pIn pOut xs).getD (i + 1) 0 =
        a * ((hpfLoop a pIn pOut xs).getD i 0
          + xs.getD (i + 1) 0 - xs.getD i 0) := by
  induction xs with
  | nil => intro i pIn pOut h; simp at h
  | cons x xs ih =>
    intro i pIn pOut h
    match i with
    | 0 =>
      have hxs : xs ≠ [] := by
        intro he
        rw [he] at h
        simp at h
      match xs, hxs with
      | y :: ys, _ =>
        simp [hpfLoop, List.getD_cons_succ, List.getD_cons_zero]
    | j + 1 =>
      have h' : j + 1 + 1 ≤ xs.length := by
        simpa [Nat.succ_lt_succ_iff] using h
      have h'' : j + 1 < xs.length := h'
      simp only [hpfLoop, List.getD_cons_succ]
      exact ih j x (a * (pOut + x - pIn)) h''

/-- C4 (amended): for a valid cutoff, `high_pass_filter` leaves element 0
equal to the raw input sample; element 1 is `alpha * (0 + input[1] −
input[0])` — the internal filter state starts at 0, not at `output[0]` —
and for every `i ≥ 2`, `output[i] = alpha * (output[i-1] + input[i] −
input[i-1])` with `output[i-1]` the previously filtered value. -/
theorem hpf_recurrence (data : List ℝ) (cutoff rate : ℝ)
    (h0 : 0 < cutoff) (h1 : cutoff < rate / 2) (hne : data ≠ []) :
    (high_pass_filter data cutoff rate).getD 0 0 = data.getD 0 0 ∧
    ∀ i, 1 ≤ i → i < data.length →
      (high_pass_filter data cutoff rate).getD i 0 =
        hpfAlpha cutoff rate *
          ((if i = 1 then 0 else (high_pass_filter data cutoff rate).getD (i - 1) 0)
            + data.getD i 0 - data.getD (i - 1) 0) := by
  match data, hne with
  | d0 :: rest, _ =>
    have hguard : ¬ (cutoff ≤ 0 ∨ rate / 2 ≤ cutoff) := by
      push_neg
      exact ⟨h0, h1⟩
    have hout : high_pass_filter (d0 :: rest) cutoff rate
        = d0 :: hpfLoop (hpfAlpha cutoff rate) d0 0 rest := by
      unfold high_pass_filter
      rw [if_neg hguard]
    rw [hout]
    refine ⟨by simp, ?_⟩
    intro i h1i hlen
    match i, h1i with
    | 1, _ =>
      have hrest : rest ≠ [] := by
        intro he
        rw [he] at hlen
        simp at hlen
      match rest, hrest with
      | y :: ys, _ =>
        simp [hpfLoop, List.getD_cons_succ, List.getD_cons_zero]
    | j + 2, _ =>
      have hi2 : j + 1 < rest.length := by
        simpa [Nat.succ_lt_succ_iff] using hlen
      have key := hpfLoop_getD_succ (hpfAlpha cutoff rate) rest j d0 0 hi2
      simp only [show j + 2 - 1 = j + 1 from rfl, List.getD_cons_succ,
        if_neg (by omega : ¬ j + 2 = 1)]
      rw [key]

/-- Witness for C4's amended recurrence at `data = [1, 0]`, `cutoff = 100`,
`rate = 16000`. -/
theorem hpf_recurrence_witness :
    (0 : ℝ) < 100 ∧ (100 : ℝ) < 16000 / 2 ∧ ([1, 0] : List ℝ) ≠ [] ∧
    ((high_pass_filter [1, 0] 100 16000).getD 0 0 = ([1, 0] : List ℝ).getD 0 0 ∧
    ∀ i, 1 ≤ i → i < ([1, 0] : List ℝ).length →
      (high_pass_filter [1, 0] 100 16000).getD i 0 =
        hpfAlpha 100 16000 *
          ((if i = 1 then 0 else (high_pass_filter [1, 0] 100 16000).getD (i - 1) 0)
            + ([1, 0] : List ℝ).getD i 0 - ([1, 0] : List ℝ).getD (i - 1) 0)) :=
  ⟨by norm_num, by norm_num, by simp,
    hpf_recurrence [1, 0] 100 16000 (by norm_num) (by norm_num) (by simp)⟩

/-- C4 (counterexample): at `data = [1, 0]`, `cutoff = 100`, `rate = 16000`,
the claimed recurrence `output[1] = alpha * (output[0] + input[1] − input[0])`
fails: the code computes `output[1] = alpha * (0 + input[1] − input[0]) =
−alpha`, whereas the claimed right-hand side is `alpha * (1 + 0 − 1) = 0`. -/
theorem hpf_claim_false_at_one :
    ¬ ((high_pass_filter [1, 0] 100 16000).getD 1 0 =
        hpfAlpha 100 16000 *
          ((high_pass_filter [1, 0] 100 16000).getD 0 0
            + ([1, 0] : List ℝ).getD 1 0 - ([1, 0] : List ℝ).getD 0 0)) := by
  have hguard : ¬ ((100 : ℝ) ≤ 0 ∨ (16000 : ℝ) / 2 ≤ 100) := by norm_num
  have hout : high_pass_filter [1, 0] 100 16000
      = [1, hpfAlpha 100 16000 * (0 + 0 - 1)] := by
    unfold high_pass_filter
    rw [if_neg hguard]
    simp [hpfLoop]
  have hα : 0 < hpfAlpha 100 16000 := by
    unfold hpfAlpha
    positivity
  rw [hout]
  simp only [List.getD_cons_zero, List.getD_cons_succ]
  intro h
  norm_num at h
  linarith

/-- C9: for every buffer and every cutoff with `cutoff ≤ 0` or
`cutoff ≥ sample_rate / 2`, `high_pass_filter` returns the buffer
unchanged. -/
theorem hpf_noop_invalid_cutoff (data : List ℝ) (cutoff rate : ℝ)
    (h : cutoff ≤ 0 ∨ rate / 2 ≤ cutoff) :
    high_pass_filter data cutoff rate = data := by
  unfold high_pass_filter
  rw [if_pos h]

/-- Witness for C9 at `cutoff = 0`. -/
theorem hpf_noop_invalid_cutoff_witness :
    ((0 : ℝ) ≤ 0 ∨ (16000 : ℝ) / 2 ≤ 0) ∧
    high_pass_filter [1, 2] 0 16000 = [1, 2] :=
  ⟨Or.inl le_rfl, hpf_noop_invalid_cutoff [1, 2] 0 16000 (Or.inl le_rfl)⟩

/-- C10 (amended): for every NON-empty buffer and all cutoff and sample-rate
values, `high_pass_filter` completes with every buffer access in range (the
access-checked model returns `some` of the plain result). On the empty
buffer with a valid cutoff the code reads `data[0]` out of range. -/
theorem hpf_checked_total_of_ne_nil (data : List ℝ) (cutoff rate : ℝ)
    (hne : data ≠ []) :
    high_pass_filterChecked data cutoff rate
      = some (high_pass_filter data cutoff rate) := by
  unfold high_pass_filterChecked high_pass_filter
  by_cases h : cutoff ≤ 0 ∨ rate / 2 ≤ cutoff
  · rw [if_pos h, if_pos h]
  · rw [if_neg h, if_neg h]
    match data, hne with
    | d :: rest, _ => rfl

/-- Witness for C10's amended totality claim at `data = [1]`. -/
theorem hpf_checked_total_witness :
    ([1] : List ℝ) ≠ [] ∧
    high_pass_filterChecked [1] 100 16000
      = some (high_pass_filter [1] 100 16000) :=
  ⟨by simp, hpf_checked_total_of_ne_nil [1] 100 16000 (by simp)⟩

/-- C10 (counterexample): on the empty buffer with the valid cutoff 100 Hz at
16 kHz, the filter's unguarded read of `data[0]` is out of range: the
access-checked model returns `none`. -/
theorem hpf_checked_none_on_nil :
    high_pass_filterChecked [] 100 16000 = none := by
  unfold high_pass_filterChecked
  rw [if_neg (by norm_num : ¬ ((100 : ℝ) ≤ 0 ∨ (16000 : ℝ) / 2 ≤ 100))]

theorem sumSq_replicate_zero (n : ℕ) : sumSq (List.replicate n 0) = 0 := by
  induction n with
  | zero => rfl
  | succ n ih => simp [List.replicate_succ, sumSq, ih]

theorem iteTF_eq_true_iff (c : Prop) [Decidable c] :
    ((if c then true else false) = true) ↔ c := by
  by_cases h : c
  · simp [h]
  · simp [h]

/-- C1 (amended): `vad_deepseek` returns `false` (NOT silence) whenever the
buffer is empty or the trailing window converted to samples is ≥ the total
sample count, for any threshold values. (The source's edge case at lines
45–50 returns `false`, the "speech" classification, not `true`.) -/
theorem vad_edge_returns_false (pcm : List ℝ) (rate last_ms : ℕ)
    (thold fthold nf : ℝ)
    (h : pcm = [] ∨ rate * last_ms / 1000 ≥ pcm.length) :
    (vad_deepseek pcm rate last_ms thold fthold nf).1 = false := by
  have hcond : rate * last_ms / 1000 ≥ pcm.length ∨ pcm.length = 0 := by
    rcases h with h | h
    · right
      rw [h]
      rfl
    · left
      exact h
  simp only [vad_deepseek]
  rw [if_pos hcond]

/-- Witness for C1's amended edge-case behaviour on the empty buffer. -/
theorem vad_edge_returns_false_witness :
    (([] : List ℝ) = [] ∨ 16000 * 100 / 1000 ≥ ([] : List ℝ).length) ∧
    (vad_deepseek [] 16000 100 2 0 0).1 = false :=
  ⟨Or.inl rfl, vad_edge_returns_false [] 16000 100 2 0 0 (Or.inl rfl)⟩

/-- C1 (counterexample): on the empty buffer (threshold 2, no pre-filter,
zero noise floor) `vad_deepseek` does NOT return `true` as the claim states:
it returns `false`. -/
theorem vad_edge_claim_false :
    ¬ ((vad_deepseek ([] : List ℝ) 16000 100 2 0 0).1 = true) := by
  have hc : 16000 * 100 / 1000 ≥ ([] : List ℝ).length ∨ ([] : List ℝ).length = 0 :=
    Or.inr rfl
  simp only [vad_deepseek]
  rw [if_pos hc]
  simp

/-- C5: for every VAD classification that passes the size check (with a
non-degenerate trailing window), the result is silence exactly when
`energy_last < max(energy_all, noise_floor) / vad_threshold`, where the two
energies are RMS values `sqrt(sum(sample²)/count)` over the regions of the
high-pass-filtered working copy (filtered only when `freq_thold > 0`), the
previous-region RMS being 0 when that region is empty. -/
theorem vad_classification_formula (pcm : List ℝ) (rate last_ms : ℕ)
    (thold fthold nf : ℝ)
    (hedge : ¬ (rate * last_ms / 1000 ≥ pcm.length ∨ pcm.length = 0))
    (hwin : 0 < rate * last_ms / 1000) :
    ((vad_deepseek pcm rate last_ms thold fthold nf).1 = true ↔
      (let filtered :=
        if 0 < fthold then high_pass_filter pcm fthold (rate : ℝ) else pcm
       let n_all := pcm.length - rate * last_ms / 1000
       let energy_all :=
        if 0 < n_all then Real.sqrt (sumSq (filtered.take n_all) / (n_all : ℝ))
        else 0
       let energy_last :=
        Real.sqrt (sumSq (filtered.drop n_all) / ((rate * last_ms / 1000 : ℕ) : ℝ))
       energy_last < max energy_all nf / thold)) := by
  simp only [vad_deepseek]
  rw [if_neg hedge]
  exact iteTF_eq_true_iff _

/-- Witness for C5 at a concrete three-sample buffer with a one-sample
trailing window. -/
theorem vad_classification_formula_witness :
    (¬ (1000 * 1 / 1000 ≥ ([1, 0, 0] : List ℝ).length ∨
        ([1, 0, 0] : List ℝ).length = 0)) ∧
    0 < 1000 * 1 / 1000 ∧
    ((vad_deepseek [1, 0, 0] 1000 1 2 0 1).1 = true ↔
      (let filtered :=
        if (0 : ℝ) < 0 then high_pass_filter [1, 0, 0] 0 (1000 : ℝ) else [1, 0, 0]
       let n_all := ([1, 0, 0] : List ℝ).length - 1000 * 1 / 1000
       let energy_all :=
        if 0 < n_all then Real.sqrt (sumSq (filtered.take n_all) / (n_all : ℝ))
        else 0
       let energy_last :=
        Real.sqrt (sumSq (filtered.drop n_all) / ((1000 * 1 / 1000 : ℕ) : ℝ))
       energy_last < max energy_all 1 / 2)) :=
  ⟨by norm_num, by norm_num,
    vad_classification_formula [1, 0, 0] 1000 1 2 0 1 (by norm_num) (by norm_num)⟩

/-! ## Evaluation of the VAD on all-zero buffers (used by the concrete
state-machine scenarios) -/

theorem vad_zero_silent (n rate last_ms : ℕ) (thold nf : ℝ)
    (hedge : ¬ (rate * last_ms / 1000 ≥ n ∨ n = 0))
    (hpos : (0 : ℝ) < max 0 nf / thold) :
    (vad_deepseek (List.replicate n (0 : ℝ)) rate last_ms thold 0 nf).1 = true := by
  simp only [vad_deepseek, List.length_replicate]
  rw [if_neg hedge]
  simp only [lt_irrefl, if_false, List.take_replicate, List.drop_replicate,
    sumSq_replicate_zero, zero_div, Real.sqrt_zero, ite_self]
  rw [if_pos hpos]

theorem vad_zero_speech_nf0 (n rate last_ms : ℕ) (thold : ℝ)
    (hedge : ¬ (rate * last_ms / 1000 ≥ n ∨ n = 0)) :
    (vad_deepseek (List.replicate n (0 : ℝ)) rate last_ms thold 0 0).1 = false := by
  simp only [vad_deepseek, List.length_replicate]
  rw [if_neg hedge]
  simp only [lt_irrefl, if_false, List.take_replicate, List.drop_replicate,
    sumSq_replicate_zero, zero_div, Real.sqrt_zero, ite_self]
  rw [if_neg (by simp : ¬ (0 : ℝ) < max 0 0 / thold)]

theorem lastN_of_length_le (l : List ℝ) (n : ℕ) (h : l.length ≤ n) :
    lastN n l = l := by
  simp [lastN, Nat.sub_eq_zero_of_le h]

/-- In every hysteresis branch except the Idle silence-timeout cleanup, the
voice buffer is left as the appended accumulation. -/
theorem hysteresisStep_voice_of_no_cleanup (st : WhisperState) (voice1 : List ℝ)
    (sd flushCmd : Bool) (minS maxS now : ℕ)
    (h : sd = false ∨ st.is_speaking = true ∨ now - st.last_voice_time ≤ maxS) :
    (hysteresisStep st voice1 sd flushCmd minS maxS now).pcmf32_voice = voice1 := by
  unfold hysteresisStep
  rcases h with h | h | h
  · rw [if_pos h]
  · rw [h]
    by_cases hsd : sd = false
    · rw [if_pos hsd]
    · rw [if_neg hsd, if_pos rfl]
  · by_cases hsd : sd = false
    · rw [if_pos hsd]
    · rw [if_neg hsd]
      by_cases hsp : st.is_speaking = true
      · rw [if_pos hsp]
      · rw [if_neg hsp, if_neg (by omega : ¬ now - st.last_voice_time > maxS)]

/-! ## State-machine claims -/

/-- C6: when the segmenter was in `Speaking` state and the VAD classifies the
accumulated buffer as silence, that same call refreshes `last_voice_time`,
forces the flush (an emission happens even with the caller's flush flag
false), performs exactly one emission whose span is the trailing-context
buffer followed by the accumulated voice samples, and (on transcription
success) leaves the machine Idle with the voice buffer cleared. -/
theorem speaking_silence_triggers_emission (p : WhisperParams)
    (st : WhisperState) (chunk : List ℝ) (flushCmd : Bool) (minS maxS now : ℕ)
    (hs : st.is_speaking = true)
    (hvad : (vad_deepseek (st.pcmf32_voice ++ chunk) WHISPER_SAMPLE_RATE minS
        p.vad_thold p.freq_thold st.noise_floor).1 = true)
    (hold : st.pcmf32_old.length ≤ p.keep_ms * WHISPER_SAMPLE_RATE / 1000) :
    (processAudioStream p st chunk flushCmd minS maxS now true).emitted
      = some (st.pcmf32_old ++ (st.pcmf32_voice ++ chunk)) ∧
    (processAudioStream p st chunk flushCmd minS maxS now true).state.is_speaking
      = false ∧
    (processAudioStream p st chunk flushCmd minS maxS now true).state.last_voice_time
      = now ∧
    (processAudioStream p st chunk flushCmd minS maxS now true).state.pcmf32_voice
      = [] ∧
    (processAudioStream p st chunk flushCmd minS maxS now true).threw = false := by
  have hctx : (if st.pcmf32_old = [] then ([] : List ℝ)
      else lastN (min st.pcmf32_old.length (p.keep_ms * WHISPER_SAMPLE_RATE / 1000))
        st.pcmf32_old) = st.pcmf32_old := by
    by_cases h : st.pcmf32_old = []
    · rw [if_pos h, h]
    · rw [if_neg h, min_eq_left hold]
      exact lastN_of_length_le _ _ le_rfl
  have hH : hysteresisStep st (st.pcmf32_voice ++ chunk)
      (vad_deepseek (st.pcmf32_voice ++ chunk) WHISPER_SAMPLE_RATE minS
        p.vad_thold p.freq_thold st.noise_floor).1 flushCmd minS maxS now
      = ⟨true, now, st.pcmf32_old, st.pcmf32_voice ++ chunk, true⟩ := by
    unfold hysteresisStep
    rw [hvad, hs]
    rw [if_neg (by simp), if_pos rfl]
  simp only [processAudioStream]
  rw [hH, hctx]
  simp

/-- Witness for C6: a session that was speaking receives a silent chunk (32
zero samples, adaptive noise floor 1) with `flush = false`; the emission
happens anyway. -/
theorem speaking_silence_triggers_emission_witness :
    ((⟨[], [], true, 0, 1⟩ : WhisperState).is_speaking = true ∧
      (vad_deepseek ((⟨[], [], true, 0, 1⟩ : WhisperState).pcmf32_voice
          ++ List.replicate 32 0) WHISPER_SAMPLE_RATE 1
          (2 : ℝ) (0 : ℝ) (⟨[], [], true, 0, 1⟩ : WhisperState).noise_floor).1 = true ∧
      (⟨[], [], true, 0, 1⟩ : WhisperState).pcmf32_old.length
        ≤ 1 * WHISPER_SAMPLE_RATE / 1000) ∧
    (processAudioStream ⟨1, 2, 0⟩ ⟨[], [], true, 0, 1⟩ (List.replicate 32 0)
        false 1 1000 5 true).emitted
      = some (([] : List ℝ) ++ (([] : List ℝ) ++ List.replicate 32 0)) ∧
    (processAudioStream ⟨1, 2, 0⟩ ⟨[], [], true, 0, 1⟩ (List.replicate 32 0)
        false 1 1000 5 true).state.is_speaking = false ∧
    (processAudioStream ⟨1, 2, 0⟩ ⟨[], [], true, 0, 1⟩ (List.replicate 32 0)
        false 1 1000 5 true).state.last_voice_time = 5 ∧
    (processAudioStream ⟨1, 2, 0⟩ ⟨[], [], true, 0, 1⟩ (List.replicate 32 0)
        false 1 1000 5 true).state.pcmf32_voice = [] ∧
    (processAudioStream ⟨1, 2, 0⟩ ⟨[], [], true, 0, 1⟩ (List.replicate 32 0)
        false 1 1000 5 true).threw = false := by
  have hvad : (vad_deepseek ((⟨[], [], true, 0, 1⟩ : WhisperState).pcmf32_voice
      ++ List.replicate 32 0) WHISPER_SAMPLE_RATE 1
      (2 : ℝ) (0 : ℝ) (⟨[], [], true, 0, 1⟩ : WhisperState).noise_floor).1 = true := by
    show (vad_deepseek (([] : List ℝ) ++ List.replicate 32 0)
        WHISPER_SAMPLE_RATE 1 (2 : ℝ) (0 : ℝ) (1 : ℝ)).1 = true
    rw [List.nil_append]
    exact vad_zero_silent 32 WHISPER_SAMPLE_RATE 1 2 1
      (by norm_num [WHISPER_SAMPLE_RATE])
      (by rw [max_eq_right (by norm_num : (0 : ℝ) ≤ 1)]; norm_num)
  exact ⟨⟨rfl, hvad, by norm_num [WHISPER_SAMPLE_RATE]⟩,
    speaking_silence_triggers_emission ⟨1, 2, 0⟩ ⟨[], [], true, 0, 1⟩
      (List.replicate 32 0) false 1 1000 5 rfl hvad
      (by norm_num [WHISPER_SAMPLE_RATE])⟩

/-- Full evaluation of the Idle silence-timeout cleanup path of
`processAudioStream`: already idle, VAD reports silence, caller flush false,
elapsed silence beyond `maxSilenceMs`. The cleanup's trimmed trailing
context is subsequently overwritten by the (now empty) voice buffer in the
non-emission context-retention step, so the call returns with BOTH buffers
empty and no emission. -/
theorem processAudioStream_idle_cleanup (p : WhisperParams) (st : WhisperState)
    (chunk : List ℝ) (minS maxS now : ℕ) (ok : Bool)
    (hs : st.is_speaking = false)
    (hvad : (vad_deepseek (st.pcmf32_voice ++ chunk) WHISPER_SAMPLE_RATE minS
        p.vad_thold p.freq_thold st.noise_floor).1 = true)
    (hdur : now - st.last_voice_time > maxS) :
    (processAudioStream p st chunk false minS maxS now ok).emitted = none ∧
    (processAudioStream p st chunk false minS maxS now ok).threw = false ∧
    (processAudioStream p st chunk false minS maxS now ok).state.pcmf32_voice = [] ∧
    (processAudioStream p st chunk false minS maxS now ok).state.pcmf32_old = [] ∧
    (processAudioStream p st chunk false minS maxS now ok).state.is_speaking = false ∧
    (processAudioStream p st chunk false minS maxS now ok).state.last_voice_time = now := by
  have hH : hysteresisStep st (st.pcmf32_voice ++ chunk)
      (vad_deepseek (st.pcmf32_voice ++ chunk) WHISPER_SAMPLE_RATE minS
        p.vad_thold p.freq_thold st.noise_floor).1 false minS maxS now
      = ⟨st.is_speaking, now,
          (if (st.pcmf32_voice ++ chunk).length > minS * WHISPER_SAMPLE_RATE / 1000
            then lastN (minS * WHISPER_SAMPLE_RATE / 1000) (st.pcmf32_voice ++ chunk)
            else st.pcmf32_voice ++ chunk), [], false⟩ := by
    unfold hysteresisStep
    rw [hvad]
    rw [if_neg (by simp), if_neg (by simp [hs]), if_pos hdur]
  simp only [processAudioStream]
  rw [hH]
  simp [hs]

/-- C8 (amended): in the Idle-and-still-silent cleanup (flush false, silence
past `max_silence_ms`), no emission occurs, the voice buffer is cleared and
`last_voice_time` refreshed — but the trailing-context buffer ends the call
EMPTY: the cleanup's trimmed copy is overwritten by the now-empty voice
buffer in the non-emission context-retention step. -/
theorem idle_silence_cleanup_empties_buffers (p : WhisperParams)
    (st : WhisperState) (chunk : List ℝ) (minS maxS now : ℕ) (ok : Bool)
    (hs : st.is_speaking = false)
    (hvad : (vad_deepseek (st.pcmf32_voice ++ chunk) WHISPER_SAMPLE_RATE minS
        p.vad_thold p.freq_thold st.noise_floor).1 = true)
    (hdur : now - st.last_voice_time > maxS) :
    (processAudioStream p st chunk false minS maxS now ok).emitted = none ∧
    (processAudioStream p st chunk false minS maxS now ok).state.pcmf32_voice = [] ∧
    (processAudioStream p st chunk false minS maxS now ok).state.last_voice_time = now ∧
    (processAudioStream p st chunk false minS maxS now ok).state.pcmf32_old = [] := by
  obtain ⟨h1, h2, h3, h4, h5, h6⟩ :=
    processAudioStream_idle_cleanup p st chunk minS maxS now ok hs hvad hdur
  exact ⟨h1, h3, h6, h4⟩

/-- Witness for C8's amended cleanup behaviour: 32 zero samples ingested
while idle, noise floor 1, 1000 ms since the last voice, `max_silence_ms`
= 5. -/
theorem idle_silence_cleanup_empties_buffers_witness :
    ((⟨[], [], false, 0, 1⟩ : WhisperState).is_speaking = false ∧
      (vad_deepseek ((⟨[], [], false, 0, 1⟩ : WhisperState).pcmf32_voice
          ++ List.replicate 32 0) WHISPER_SAMPLE_RATE 1
          (2 : ℝ) (0 : ℝ) (⟨[], [], false, 0, 1⟩ : WhisperState).noise_floor).1 = true ∧
      1000 - (⟨[], [], false, 0, 1⟩ : WhisperState).last_voice_time > 5) ∧
    (processAudioStream ⟨1, 2, 0⟩ ⟨[], [], false, 0, 1⟩ (List.replicate 32 0)
        false 1 5 1000 true).emitted = none ∧
    (processAudioStream ⟨1, 2, 0⟩ ⟨[], [], false, 0, 1⟩ (List.replicate 32 0)
        false 1 5 1000 true).state.pcmf32_voice = [] ∧
    (processAudioStream ⟨1, 2, 0⟩ ⟨[], [], false, 0, 1⟩ (List.replicate 32 0)
        false 1 5 1000 true).state.last_voice_time = 1000 ∧
    (processAudioStream ⟨1, 2, 0⟩ ⟨[], [], false, 0, 1⟩ (List.replicate 32 0)
        false 1 5 1000 true).state.pcmf32_old = [] := by
  have hvad : (vad_deepseek ((⟨[], [], false, 0, 1⟩ : WhisperState).pcmf32_voice
      ++ List.replicate 32 0) WHISPER_SAMPLE_RATE 1
      (2 : ℝ) (0 : ℝ) (⟨[], [], false, 0, 1⟩ : WhisperState).noise_floor).1 = true := by
    show (vad_deepseek (([] : List ℝ) ++ List.replicate 32 0)
        WHISPER_SAMPLE_RATE 1 (2 : ℝ) (0 : ℝ) (1 : ℝ)).1 = true
    rw [List.nil_append]
    exact vad_zero_silent 32 WHISPER_SAMPLE_RATE 1 2 1
      (by norm_num [WHISPER_SAMPLE_RATE])
      (by rw [max_eq_right (by norm_num : (0 : ℝ) ≤ 1)]; norm_num)
  exact ⟨⟨rfl, hvad, by norm_num⟩,
    idle_silence_cleanup_empties_buffers ⟨1, 2, 0⟩ ⟨[], [], false, 0, 1⟩
      (List.replicate 32 0) 1 5 1000 true rfl hvad (by norm_num)⟩

/-- C8 (counterexample): in the same cleanup scenario the claim's predicted
final trailing-context buffer — the moved voice samples trimmed to the last
`min_silence_window_ms` worth (here 16 zero samples) — is NOT what the code
leaves: the trailing-context buffer ends the call empty. -/
theorem idle_silence_cleanup_claim_false :
    (processAudioStream ⟨1, 2, 0⟩ ⟨[], [], false, 0, 1⟩ (List.replicate 32 0)
        false 1 5 1000 true).emitted = none ∧
    (processAudioStream ⟨1, 2, 0⟩ ⟨[], [], false, 0, 1⟩ (List.replicate 32 0)
        false 1 5 1000 true).state.pcmf32_voice = [] ∧
    (processAudioStream ⟨1, 2, 0⟩ ⟨[], [], false, 0, 1⟩ (List.replicate 32 0)
        false 1 5 1000 true).state.pcmf32_old
      ≠ lastN (1 * WHISPER_SAMPLE_RATE / 1000)
          (([] : List ℝ) ++ List.replicate 32 0) := by
  have hvad : (vad_deepseek ((⟨[], [], false, 0, 1⟩ : WhisperState).pcmf32_voice
      ++ List.replicate 32 0) WHISPER_SAMPLE_RATE 1
      (2 : ℝ) (0 : ℝ) (⟨[], [], false, 0, 1⟩ : WhisperState).noise_floor).1 = true := by
    show (vad_deepseek (([] : List ℝ) ++ List.replicate 32 0)
        WHISPER_SAMPLE_RATE 1 (2 : ℝ) (0 : ℝ) (1 : ℝ)).1 = true
    rw [List.nil_append]
    exact vad_zero_silent 32 WHISPER_SAMPLE_RATE 1 2 1
      (by norm_num [WHISPER_SAMPLE_RATE])
      (by rw [max_eq_right (by norm_num : (0 : ℝ) ≤ 1)]; norm_num)
  obtain ⟨h1, h2, h3, h4, h5, h6⟩ :=
    processAudioStream_idle_cleanup ⟨1, 2, 0⟩ ⟨[], [], false, 0, 1⟩
      (List.replicate 32 0) 1 5 1000 true rfl hvad (by norm_num)
  refine ⟨h1, h3, ?_⟩
  rw [h4, List.nil_append]
  intro hcontra
  have : (lastN (1 * WHISPER_SAMPLE_RATE / 1000) (List.replicate 32 (0 : ℝ))).length
      = 0 := by
    rw [← hcontra]
    rfl
  rw [lastN, List.drop_replicate, List.length_replicate] at this
  norm_num [WHISPER_SAMPLE_RATE] at this

/-- Evaluation of the "utterance just ended" emission when the external
transcription call FAILS: the exception leaves the method before any buffer
reset, so the voice buffer still holds the whole accumulated span and
`is_speaking` is still `true`. -/
theorem speaking_silence_fail_eval (p : WhisperParams) (st : WhisperState)
    (chunk : List ℝ) (flushCmd : Bool) (minS maxS now : ℕ)
    (hs : st.is_speaking = true)
    (hvad : (vad_deepseek (st.pcmf32_voice ++ chunk) WHISPER_SAMPLE_RATE minS
        p.vad_thold p.freq_thold st.noise_floor).1 = true)
    (hold : st.pcmf32_old.length ≤ p.keep_ms * WHISPER_SAMPLE_RATE / 1000) :
    (processAudioStream p st chunk flushCmd minS maxS now false).emitted
      = some (st.pcmf32_old ++ (st.pcmf32_voice ++ chunk)) ∧
    (processAudioStream p st chunk flushCmd minS maxS now false).threw = true ∧
    (processAudioStream p st chunk flushCmd minS maxS now false).state.pcmf32_voice
      = st.pcmf32_voice ++ chunk ∧
    (processAudioStream p st chunk flushCmd minS maxS now false).state.is_speaking
      = true ∧
    (processAudioStream p st chunk flushCmd minS maxS now false).state.pcmf32_old
      = st.pcmf32_old := by
  have hctx : (if st.pcmf32_old = [] then ([] : List ℝ)
      else lastN (min st.pcmf32_old.length (p.keep_ms * WHISPER_SAMPLE_RATE / 1000))
        st.pcmf32_old) = st.pcmf32_old := by
    by_cases h : st.pcmf32_old = []
    · rw [if_pos h, h]
    · rw [if_neg h, min_eq_left hold]
      exact lastN_of_length_le _ _ le_rfl
  have hH : hysteresisStep st (st.pcmf32_voice ++ chunk)
      (vad_deepseek (st.pcmf32_voice ++ chunk) WHISPER_SAMPLE_RATE minS
        p.vad_thold p.freq_thold st.noise_floor).1 flushCmd minS maxS now
      = ⟨true, now, st.pcmf32_old, st.pcmf32_voice ++ chunk, true⟩ := by
    unfold hysteresisStep
    rw [hvad, hs]
    rw [if_neg (by simp), if_pos rfl]
  simp only [processAudioStream]
  rw [hH, hctx]
  simp

/-- C2 (amended): when an emission is attempted and the external
transcription call fails, the failure surfaces to the caller as an error
(the exception propagates, no retry — at most one transcription attempt
exists per call), and the buffers are NOT reset: the voice buffer, the
trailing-context buffer and `is_speaking` are left exactly as the
hysteresis step produced them before the attempt, so the same span WILL be
reprocessed by subsequent calls. -/
theorem transcription_failure_no_reset (p : WhisperParams) (st : WhisperState)
    (chunk : List ℝ) (flushCmd : Bool) (minS maxS now : ℕ)
    (hem : (processAudioStream p st chunk flushCmd minS maxS now false).emitted
      ≠ none) :
    (processAudioStream p st chunk flushCmd minS maxS now false).threw = true ∧
    (processAudioStream p st chunk flushCmd minS maxS now false).state.pcmf32_voice
      = (hysteresisStep st (st.pcmf32_voice ++ chunk)
          (vad_deepseek (st.pcmf32_voice ++ chunk) WHISPER_SAMPLE_RATE minS
            p.vad_thold p.freq_thold st.noise_floor).1
          flushCmd minS maxS now).pcmf32_voice ∧
    (processAudioStream p st chunk flushCmd minS maxS now false).state.is_speaking
      = (hysteresisStep st (st.pcmf32_voice ++ chunk)
          (vad_deepseek (st.pcmf32_voice ++ chunk) WHISPER_SAMPLE_RATE minS
            p.vad_thold p.freq_thold st.noise_floor).1
          flushCmd minS maxS now).is_speaking ∧
    (processAudioStream p st chunk flushCmd minS maxS now false).state.pcmf32_old
      = (hysteresisStep st (st.pcmf32_voice ++ chunk)
          (vad_deepseek (st.pcmf32_voice ++ chunk) WHISPER_SAMPLE_RATE minS
            p.vad_thold p.freq_thold st.noise_floor).1
          flushCmd minS maxS now).pcmf32_old := by
  simp only [processAudioStream] at hem ⊢
  by_cases hb : ((hysteresisStep st (st.pcmf32_voice ++ chunk)
      (vad_deepseek (st.pcmf32_voice ++ chunk) WHISPER_SAMPLE_RATE minS
        p.vad_thold p.freq_thold st.noise_floor).1
      flushCmd minS maxS now).flush
    || decide ((hysteresisStep st (st.pcmf32_voice ++ chunk)
      (vad_deepseek (st.pcmf32_voice ++ chunk) WHISPER_SAMPLE_RATE minS
        p.vad_thold p.freq_thold st.noise_floor).1
      flushCmd minS maxS now).pcmf32_voice.length
        > MAX_TALKING_MS * WHISPER_SAMPLE_RATE / 1000)) = true
  · rw [if_pos hb]
    simp
  · rw [if_neg hb] at hem
    simp at hem

/-- Witness for C2's amended failure behaviour: the speaking-to-silence
scenario of C6 but with the transcription engine failing. -/
theorem transcription_failure_no_reset_witness :
    ((processAudioStream ⟨1, 2, 0⟩ ⟨[], [], true, 0, 1⟩ (List.replicate 32 0)
        false 1 1000 5 false).emitted ≠ none) ∧
    (processAudioStream ⟨1, 2, 0⟩ ⟨[], [], true, 0, 1⟩ (List.replicate 32 0)
        false 1 1000 5 false).threw = true ∧
    (processAudioStream ⟨1, 2, 0⟩ ⟨[], [], true, 0, 1⟩ (List.replicate 32 0)
        false 1 1000 5 false).state.pcmf32_voice
      = (hysteresisStep ⟨[], [], true, 0, 1⟩
          ((⟨[], [], true, 0, 1⟩ : WhisperState).pcmf32_voice ++ List.replicate 32 0)
          (vad_deepseek ((⟨[], [], true, 0, 1⟩ : WhisperState).pcmf32_voice
              ++ List.replicate 32 0) WHISPER_SAMPLE_RATE 1
            (2 : ℝ) (0 : ℝ) (⟨[], [], true, 0, 1⟩ : WhisperState).noise_floor).1
          false 1 1000 5).pcmf32_voice ∧
    (processAudioStream ⟨1, 2, 0⟩ ⟨[], [], true, 0, 1⟩ (List.replicate 32 0)
        false 1 1000 5 false).state.is_speaking
      = (hysteresisStep ⟨[], [], true, 0, 1⟩
          ((⟨[], [], true, 0, 1⟩ : WhisperState).pcmf32_voice ++ List.replicate 32 0)
          (vad_deepseek ((⟨[], [], true, 0, 1⟩ : WhisperState).pcmf32_voice
              ++ List.replicate 32 0) WHISPER_SAMPLE_RATE 1
            (2 : ℝ) (0 : ℝ) (⟨[], [], true, 0, 1⟩ : WhisperState).noise_floor).1
          false 1 1000 5).is_speaking ∧
    (processAudioStream ⟨1, 2, 0⟩ ⟨[], [], true, 0, 1⟩ (List.replicate 32 0)
        false 1 1000 5 false).state.pcmf32_old
      = (hysteresisStep ⟨[], [], true, 0, 1⟩
          ((⟨[], [], true, 0, 1⟩ : WhisperState).pcmf32_voice ++ List.replicate 32 0)
          (vad_deepseek ((⟨[], [], true, 0, 1⟩ : WhisperState).pcmf32_voice
              ++ List.replicate 32 0) WHISPER_SAMPLE_RATE 1
            (2 : ℝ) (0 : ℝ) (⟨[], [], true, 0, 1⟩ : WhisperState).noise_floor).1
          false 1 1000 5).pcmf32_old := by
  have hvad : (vad_deepseek ((⟨[], [], true, 0, 1⟩ : WhisperState).pcmf32_voice
      ++ List.replicate 32 0) WHISPER_SAMPLE_RATE 1
      (2 : ℝ) (0 : ℝ) (⟨[], [], true, 0, 1⟩ : WhisperState).noise_floor).1 = true := by
    show (vad_deepseek (([] : List ℝ) ++ List.replicate 32 0)
        WHISPER_SAMPLE_RATE 1 (2 : ℝ) (0 : ℝ) (1 : ℝ)).1 = true
    rw [List.nil_append]
    exact vad_zero_silent 32 WHISPER_SAMPLE_RATE 1 2 1
      (by norm_num [WHISPER_SAMPLE_RATE])
      (by rw [max_eq_right (by norm_num : (0 : ℝ) ≤ 1)]; norm_num)
  have hem : (processAudioStream ⟨1, 2, 0⟩ ⟨[], [], true, 0, 1⟩
      (List.replicate 32 0) false 1 1000 5 false).emitted ≠ none := by
    have := (speaking_silence_fail_eval ⟨1, 2, 0⟩ ⟨[], [], true, 0, 1⟩
      (List.replicate 32 0) false 1 1000 5 rfl hvad
      (by norm_num [WHISPER_SAMPLE_RATE])).1
    rw [this]
    simp
  exact ⟨hem, transcription_failure_no_reset ⟨1, 2, 0⟩ ⟨[], [], true, 0, 1⟩
    (List.replicate 32 0) false 1 1000 5 hem⟩

/-- C2 (counterexample): in a failing end-of-utterance emission (32 zero
samples after speech, engine failure) the buffers are NOT reset as the
claim states: the error surfaces but the voice buffer is non-empty (it
still holds the emitted span) and `is_speaking` is still `true`, not
`false`. -/
theorem transcription_failure_claim_false :
    (processAudioStream ⟨1, 2, 0⟩ ⟨[], [], true, 0, 1⟩ (List.replicate 32 0)
        false 1 1000 5 false).threw = true ∧
    (processAudioStream ⟨1, 2, 0⟩ ⟨[], [], true, 0, 1⟩ (List.replicate 32 0)
        false 1 1000 5 false).state.pcmf32_voice ≠ [] ∧
    ¬ ((processAudioStream ⟨1, 2, 0⟩ ⟨[], [], true, 0, 1⟩ (List.replicate 32 0)
        false 1 1000 5 false).state.is_speaking = false) := by
  have hvad : (vad_deepseek ((⟨[], [], true, 0, 1⟩ : WhisperState).pcmf32_voice
      ++ List.replicate 32 0) WHISPER_SAMPLE_RATE 1
      (2 : ℝ) (0 : ℝ) (⟨[], [], true, 0, 1⟩ : WhisperState).noise_floor).1 = true := by
    show (vad_deepseek (([] : List ℝ) ++ List.replicate 32 0)
        WHISPER_SAMPLE_RATE 1 (2 : ℝ) (0 : ℝ) (1 : ℝ)).1 = true
    rw [List.nil_append]
    exact vad_zero_silent 32 WHISPER_SAMPLE_RATE 1 2 1
      (by norm_num [WHISPER_SAMPLE_RATE])
      (by rw [max_eq_right (by norm_num : (0 : ℝ) ≤ 1)]; norm_num)
  obtain ⟨h1, h2, h3, h4, h5⟩ := speaking_silence_fail_eval ⟨1, 2, 0⟩
    ⟨[], [], true, 0, 1⟩ (List.replicate 32 0) false 1 1000 5 rfl hvad
    (by norm_num [WHISPER_SAMPLE_RATE])
  refine ⟨h2, ?_, ?_⟩
  · rw [h3]
    simp
  · rw [h4]
    simp

/-- C7 (amended): on every non-throwing return the voice buffer holds at most
`MAX_TALKING_MS` worth of samples, and a successful emission always resets it
to empty; whenever the appended chunk pushes the buffer past the cap AND the
Idle silence-timeout cleanup does not run in the same call (it runs only
when VAD reports silence, the machine is idle and the silence timer has
expired), an emission is attempted in that same call regardless of the
caller's flush flag. (The original "regardless of VAD state" is false: the
cleanup path can empty an over-cap buffer without any emission.) -/
theorem voice_buffer_cap_invariant (p : WhisperParams) (st : WhisperState)
    (chunk : List ℝ) (flushCmd : Bool) (minS maxS now : ℕ) (ok : Bool) :
    ((processAudioStream p st chunk flushCmd minS maxS now ok).threw = false →
      (processAudioStream p st chunk flushCmd minS maxS now ok).state.pcmf32_voice.length
        ≤ MAX_TALKING_MS * WHISPER_SAMPLE_RATE / 1000) ∧
    ((processAudioStream p st chunk flushCmd minS maxS now ok).threw = false →
      (processAudioStream p st chunk flushCmd minS maxS now ok).emitted ≠ none →
      (processAudioStream p st chunk flushCmd minS maxS now ok).state.pcmf32_voice
        = []) ∧
    ((st.pcmf32_voice ++ chunk).length > MAX_TALKING_MS * WHISPER_SAMPLE_RATE / 1000 →
      ((vad_deepseek (st.pcmf32_voice ++ chunk) WHISPER_SAMPLE_RATE minS
          p.vad_thold p.freq_thold st.noise_floor).1 = false
        ∨ st.is_speaking = true ∨ now - st.last_voice_time ≤ maxS) →
      (processAudioStream p st chunk flushCmd minS maxS now ok).emitted ≠ none) := by
  simp only [processAudioStream]
  set H := hysteresisStep st (st.pcmf32_voice ++ chunk)
      (vad_deepseek (st.pcmf32_voice ++ chunk) WHISPER_SAMPLE_RATE minS
        p.vad_thold p.freq_thold st.noise_floor).1 flushCmd minS maxS now with hHdef
  by_cases hb : (H.flush
      || decide (H.pcmf32_voice.length > MAX_TALKING_MS * WHISPER_SAMPLE_RATE / 1000))
      = true
  · rw [if_pos hb]
    cases ok with
    | true => simp
    | false => simp
  · rw [if_neg hb]
    rw [Bool.or_eq_true, not_or] at hb
    obtain ⟨hf, hd⟩ := hb
    have hle : ¬ H.pcmf32_voice.length > MAX_TALKING_MS * WHISPER_SAMPLE_RATE / 1000 := by
      intro hgt
      exact hd (decide_eq_true hgt)
    refine ⟨?_, ?_, ?_⟩
    · intro _
      simpa using Nat.le_of_not_lt hle
    · intro _ hemit
      simp at hemit
    · intro hcap hside
      exfalso
      have hv : H.pcmf32_voice = st.pcmf32_voice ++ chunk := by
        rw [hHdef]
        exact hysteresisStep_voice_of_no_cleanup st (st.pcmf32_voice ++ chunk)
          _ flushCmd minS maxS now hside
      rw [hv] at hle
      exact hle hcap

/-- Witness instantiating C7's amended cap invariant on a concrete
end-of-utterance emission call. -/
theorem voice_buffer_cap_invariant_witness :
    ((processAudioStream ⟨1, 2, 0⟩ ⟨[], [], true, 0, 1⟩ (List.replicate 32 0)
        false 1 1000 5 true).threw = false →
      (processAudioStream ⟨1, 2, 0⟩ ⟨[], [], true, 0, 1⟩ (List.replicate 32 0)
        false 1 1000 5 true).state.pcmf32_voice.length
        ≤ MAX_TALKING_MS * WHISPER_SAMPLE_RATE / 1000) ∧
    ((processAudioStream ⟨1, 2, 0⟩ ⟨[], [], true, 0, 1⟩ (List.replicate 32 0)
        false 1 1000 5 true).threw = false →
      (processAudioStream ⟨1, 2, 0⟩ ⟨[], [], true, 0, 1⟩ (List.replicate 32 0)
        false 1 1000 5 true).emitted ≠ none →
      (processAudioStream ⟨1, 2, 0⟩ ⟨[], [], true, 0, 1⟩ (List.replicate 32 0)
        false 1 1000 5 true).state.pcmf32_voice = []) ∧
    (((⟨[], [], true, 0, 1⟩ : WhisperState).pcmf32_voice
        ++ List.replicate 32 0).length
      > MAX_TALKING_MS * WHISPER_SAMPLE_RATE / 1000 →
      ((vad_deepseek ((⟨[], [], true, 0, 1⟩ : WhisperState).pcmf32_voice
          ++ List.replicate 32 0) WHISPER_SAMPLE_RATE 1
          (2 : ℝ) (0 : ℝ) (⟨[], [], true, 0, 1⟩ : WhisperState).noise_floor).1 = false
        ∨ (⟨[], [], true, 0, 1⟩ : WhisperState).is_speaking = true
        ∨ 5 - (⟨[], [], true, 0, 1⟩ : WhisperState).last_voice_time ≤ 1000) →
      (processAudioStream ⟨1, 2, 0⟩ ⟨[], [], true, 0, 1⟩ (List.replicate 32 0)
        false 1 1000 5 true).emitted ≠ none) :=
  voice_buffer_cap_invariant ⟨1, 2, 0⟩ ⟨[], [], true, 0, 1⟩
    (List.replicate 32 0) false 1 1000 5 true

/-- C7 (counterexample): a single silent chunk of 9 600 001 zero samples
(cap is 9 600 000) ingested while Idle with the silence timer expired pushes
the voice buffer past the `MAX_TALKING_MS` cap, yet NO emission occurs in
that call: the Idle silence-timeout cleanup empties the buffer first, so the
claimed "forced emission regardless of VAD state" does not happen. -/
theorem forced_emission_claim_false :
    (([] : List ℝ) ++ List.replicate 9600001 0).length
      > MAX_TALKING_MS * WHISPER_SAMPLE_RATE / 1000 ∧
    (processAudioStream ⟨1, 2, 0⟩ ⟨[], [], false, 0, 1⟩
        (List.replicate 9600001 0) false 1 5 1000 true).emitted = none := by
  constructor
  · rw [List.nil_append, List.length_replicate]
    norm_num [MAX_TALKING_MS, WHISPER_SAMPLE_RATE]
  · have hvad : (vad_deepseek ((⟨[], [], false, 0, 1⟩ : WhisperState).pcmf32_voice
        ++ List.replicate 9600001 0) WHISPER_SAMPLE_RATE 1
        (2 : ℝ) (0 : ℝ) (⟨[], [], false, 0, 1⟩ : WhisperState).noise_floor).1 = true := by
      show (vad_deepseek (([] : List ℝ) ++ List.replicate 9600001 0)
          WHISPER_SAMPLE_RATE 1 (2 : ℝ) (0 : ℝ) (1 : ℝ)).1 = true
      rw [List.nil_append]
      exact vad_zero_silent 9600001 WHISPER_SAMPLE_RATE 1 2 1
        (by norm_num [WHISPER_SAMPLE_RATE])
        (by rw [max_eq_right (by norm_num : (0 : ℝ) ≤ 1)]; norm_num)
    exact (processAudioStream_idle_cleanup ⟨1, 2, 0⟩ ⟨[], [], false, 0, 1⟩
      (List.replicate 9600001 0) 1 5 1000 true rfl hvad (by norm_num)).1

/-- C3: on a forced (buffer-overflow) emission the code retains only
`keep_ms` worth of trailing context (16 samples here), NOT the claimed
`max(2000 ms, keep_ms)` worth (32 000 samples): the source computes
`n_samples_to_actually_keep = fmaxf(WHISPER_SAMPLE_RATE * 2, n_samples_keep)`
at line 304 but the trim at lines 306–308 uses `n_samples_keep`, leaving the
computed value unused. -/
theorem forced_emission_trims_to_keep_ms_only :
    (processAudioStream ⟨1, 2, 0⟩ ⟨[], [], false, 0, 0⟩
        (List.replicate 9600001 0) false 1 5 1000 true).state.pcmf32_old
      = List.replicate 16 (0 : ℝ) ∧
    (16 : ℕ) = (⟨1, 2, 0⟩ : WhisperParams).keep_ms * WHISPER_SAMPLE_RATE / 1000 ∧
    (16 : ℕ) ≠ max (WHISPER_SAMPLE_RATE * 2)
      ((⟨1, 2, 0⟩ : WhisperParams).keep_ms * WHISPER_SAMPLE_RATE / 1000) := by
  refine ⟨?_, by norm_num [WHISPER_SAMPLE_RATE],
    by simp only [WHISPER_SAMPLE_RATE]; omega⟩
  have hvad : (vad_deepseek ((⟨[], [], false, 0, 0⟩ : WhisperState).pcmf32_voice
      ++ List.replicate 9600001 0) WHISPER_SAMPLE_RATE 1
      (2 : ℝ) (0 : ℝ) (⟨[], [], false, 0, 0⟩ : WhisperState).noise_floor).1 = false := by
    show (vad_deepseek (([] : List ℝ) ++ List.replicate 9600001 0)
        WHISPER_SAMPLE_RATE 1 (2 : ℝ) (0 : ℝ) (0 : ℝ)).1 = false
    rw [List.nil_append]
    exact vad_zero_speech_nf0 9600001 WHISPER_SAMPLE_RATE 1 2
      (by norm_num [WHISPER_SAMPLE_RATE])
  have hH : hysteresisStep ⟨[], [], false, 0, 0⟩
      ((⟨[], [], false, 0, 0⟩ : WhisperState).pcmf32_voice ++ List.replicate 9600001 0)
      (vad_deepseek ((⟨[], [], false, 0, 0⟩ : WhisperState).pcmf32_voice
          ++ List.replicate 9600001 0) WHISPER_SAMPLE_RATE 1
        (2 : ℝ) (0 : ℝ) (⟨[], [], false, 0, 0⟩ : WhisperState).noise_floor).1
      false 1 5 1000
      = ⟨true, 0, [], List.replicate 9600001 0, false⟩ := by
    unfold hysteresisStep
    rw [hvad]
    rw [if_pos rfl]
    rfl
  simp only [processAudioStream]
  rw [hH]
  have hp1 : (⟨true, 0, [], List.replicate 9600001 (0 : ℝ), false⟩ : HystOut).flush
      = false := rfl
  have hp2 : (⟨true, 0, [], List.replicate 9600001 (0 : ℝ), false⟩ : HystOut).pcmf32_voice
      = List.replicate 9600001 (0 : ℝ) := rfl
  rw [hp1, hp2, List.length_replicate]
  have hmax : MAX_TALKING_MS * WHISPER_SAMPLE_RATE / 1000 = 9600000 := by
    norm_num [MAX_TALKING_MS, WHISPER_SAMPLE_RATE]
  rw [hmax, Bool.false_or]
  have hdec : decide (9600001 > 9600000) = true := by
    rw [decide_eq_true_eq]
    norm_num
  rw [hdec, if_pos rfl, if_pos trivial]
  rw [if_pos (by norm_num [WHISPER_SAMPLE_RATE] : 9600001 > 1 * WHISPER_SAMPLE_RATE / 1000)]
  have hkeep : 1 * WHISPER_SAMPLE_RATE / 1000 = 16 := by
    norm_num [WHISPER_SAMPLE_RATE]
  rw [hkeep]
  have hlast : lastN 16 (List.replicate 9600001 (0 : ℝ)) = List.replicate 16 (0 : ℝ) := by
    unfold lastN
    rw [List.length_replicate, List.drop_replicate]
  rw [hlast]

end SumitSafe
